import Mathlib

/-!
# Verification of the `scat` watcher/coordinator (seqkit/cmd/scat.go)

A shallow embedding of the directory-watching and coordination logic of the
`scat` command. Pure decision logic of the Go source is rendered as Lean
functions; channels are rendered as explicit action lists (signals sent) and
acknowledgment lists (signals received); `time.Time` values are rendered as
integer instants; `os.Stat` results are rendered as `Option StatInfo`, with
`none` standing for a failed stat (in Go, `err != nil` with a nil `FileInfo`).
Process aborts (`checkError` / `log.Fatal` on a non-nil error) and panics
(nil dereference) are explicit result constructors.
-/

/-- Control tags exchanged between a watcher and a streaming session.
Modelled from the spec: the `SeqStreamCtrl` constants (`StreamTry`,
`StreamQuit`, `StreamEOF`, `StreamExited`) are declared outside this file;
the spec fixes them as a closed tag set of two requests and two
acknowledgments. -/
inductive SeqStreamCtrl where
  | StreamTry
  | StreamQuit
  | StreamEOF
  | StreamExited
deriving Repr, DecidableEq

/-- Result of `os.Stat`: `none` models a failed stat (nil `FileInfo`),
`some` carries the fields the watcher reads (`Size()`, `IsDir()`). -/
structure StatInfo where
  size : Int
  isDir : Bool
deriving Repr, DecidableEq

/-- One registry entry (`WatchedFx` in the source). The channel-valued
fields (`SeqChan`, `CtrlChanIn`, `CtrlChanOut`) are not part of the state:
sends on them appear as emitted actions and receives as acknowledgment
inputs of the event handlers. -/
structure WatchedFx where
  Name : String
  LastSize : Int
  LastTry : Int
  BytesRead : Int
  IsDir : Bool
deriving Repr, DecidableEq

/-- The registry (`WatchedFxPool`, a Go map) as an association list. -/
abbrev WatchedFxPool := List (String × WatchedFx)

def poolLookup : WatchedFxPool → String → Option WatchedFx
  | [], _ => none
  | (k, v) :: rest, key => if k = key then some v else poolLookup rest key

def poolErase (p : WatchedFxPool) (k : String) : WatchedFxPool :=
  p.filter (fun e => e.1 != k)

def poolUpdate (p : WatchedFxPool) (k : String) (v : WatchedFx) : WatchedFxPool :=
  p.map (fun e => if e.1 = k then (k, v) else e)

def poolInsert (p : WatchedFxPool) (k : String) (v : WatchedFx) : WatchedFxPool :=
  p ++ [(k, v)]

/-- Signals a watcher sends to a session during one event. -/
inductive WriteAction where
  | sendTry
  | sendQuit
deriving Repr, DecidableEq

/-- The `delta` flag is given in kilobytes and multiplied by 1024 at flag
parsing time (`delta := getFlagInt(cmd, "delta") * 1024`). -/
def minDeltaBytes (deltaFlag : Int) : Int :=
  deltaFlag * 1024

/-- Outcome of the write-notification branch of the watcher event loop. -/
inductive EventResult where
  | aborted
  | ignored (pool : WatchedFxPool)
  | removed (pool : WatchedFxPool)
  | tried (pool : WatchedFxPool)
  | fatal (bad : SeqStreamCtrl)
deriving Repr, DecidableEq

/-- The `fsnotify.Write` branch of `NewFxWatcher`'s event loop.
Source order: stat the path (a stat error reaches `checkError`, which
aborts); ignore if the path is untracked or now a directory; ignore if
`now - LastTry < dropDuration`; ignore if the size is unchanged; if the
size shrank, send `StreamQuit`, read one acknowledgment (anything but
`StreamExited` is fatal) and delete the entry; if the growth is below
`minDelta`, ignore; otherwise send `StreamTry` and set `LastTry` to now. -/
def handleWriteEvent (minDelta dropDuration now : Int) (pool : WatchedFxPool)
    (ePath : String) (stat : Option StatInfo) (ack : SeqStreamCtrl) :
    EventResult × List WriteAction :=
  match stat with
  | none => (EventResult.aborted, [])
  | some fi =>
    match poolLookup pool ePath with
    | none => (EventResult.ignored pool, [])
    | some w =>
      if fi.isDir then (EventResult.ignored pool, [])
      else if now - w.LastTry < dropDuration then (EventResult.ignored pool, [])
      else if w.LastSize = fi.size then (EventResult.ignored pool, [])
      else
        let delta := fi.size - w.LastSize
        if delta < 0 then
          if ack = SeqStreamCtrl.StreamExited then
            (EventResult.removed (poolErase pool ePath), [WriteAction.sendQuit])
          else
            (EventResult.fatal ack, [WriteAction.sendQuit])
        else if delta < minDelta then (EventResult.ignored pool, [])
        else
          (EventResult.tried (poolUpdate pool ePath { w with LastTry := now }),
            [WriteAction.sendTry])

/-- Outcome of the `fsnotify.Remove` branch. -/
inductive RemoveResult where
  | ignored (pool : WatchedFxPool)
  | removedDir (pool : WatchedFxPool)
  | removedFile (pool : WatchedFxPool)
  | fatal (bad : SeqStreamCtrl)
deriving Repr, DecidableEq

/-- The `fsnotify.Remove` branch: an untracked path is skipped
(`di == nil` check); a directory entry is dropped; a file entry is sent
`StreamQuit`, one acknowledgment is read (anything but `StreamExited` is
fatal) and the entry is deleted. -/
def handleRemoveEvent (pool : WatchedFxPool) (ePath : String)
    (ack : SeqStreamCtrl) : RemoveResult × List WriteAction :=
  match poolLookup pool ePath with
  | none => (RemoveResult.ignored pool, [])
  | some di =>
    if di.IsDir then (RemoveResult.removedDir (poolErase pool ePath), [])
    else if ack = SeqStreamCtrl.StreamExited then
      (RemoveResult.removedFile (poolErase pool ePath), [WriteAction.sendQuit])
    else
      (RemoveResult.fatal ack, [WriteAction.sendQuit])

/-- Outcome of the `fsnotify.Rename` branch. `panicked` models the nil
pointer dereference `self.Pool[ePath].CtrlChanIn` when the map lookup for
an untracked path yields nil: unlike the Remove branch, the Rename branch
has no nil check before the field access. -/
inductive RenameResult where
  | panicked
  | removed (pool : WatchedFxPool)
  | fatal (bad : SeqStreamCtrl)
deriving Repr, DecidableEq

/-- The `fsnotify.Rename` branch, exactly as written: the entry is looked
up and its `CtrlChanIn` field is used without a nil check, so an untracked
path panics; a tracked path is sent `StreamQuit`, one acknowledgment is
read (anything but `StreamExited` is fatal) and the entry is deleted. -/
def handleRenameEvent (pool : WatchedFxPool) (ePath : String)
    (ack : SeqStreamCtrl) : RenameResult × List WriteAction :=
  match poolLookup pool ePath with
  | none => (RenameResult.panicked, [])
  | some _ =>
    if ack = SeqStreamCtrl.StreamExited then
      (RenameResult.removed (poolErase pool ePath), [WriteAction.sendQuit])
    else
      (RenameResult.fatal ack, [WriteAction.sendQuit])

/-- Outcome of the `fsnotify.Create` branch. -/
inductive CreateResult where
  | skippedTracked (pool : WatchedFxPool)
  | aborted
  | registeredDir (pool : WatchedFxPool)
  | skippedNoMatch (pool : WatchedFxPool)
  | registeredFile (pool : WatchedFxPool)
deriving Repr, DecidableEq

/-- The `fsnotify.Create` branch: an already-tracked path is skipped before
any stat; then the path is statted (a stat error reaches `checkError`,
which aborts); a directory is registered (and the discovery walk re-run,
not modelled here); a file is registered with `LastSize` from the stat and
`LastTry := now` and is sent `StreamTry`, unless its path fails the name
pattern, in which case it is skipped. -/
def handleCreateEvent (pool : WatchedFxPool) (ePath : String)
    (stat : Option StatInfo) (reMatch : Bool) (now : Int) :
    CreateResult × List WriteAction :=
  match poolLookup pool ePath with
  | some _ => (CreateResult.skippedTracked pool, [])
  | none =>
    match stat with
    | none => (CreateResult.aborted, [])
    | some fi =>
      if fi.isDir then
        (CreateResult.registeredDir
          (poolInsert pool ePath
            { Name := ePath, LastSize := 0, LastTry := 0, BytesRead := 0, IsDir := true }), [])
      else if !reMatch then (CreateResult.skippedNoMatch pool, [])
      else
        (CreateResult.registeredFile
          (poolInsert pool ePath
            { Name := ePath, LastSize := fi.size, LastTry := now, BytesRead := 0,
              IsDir := false }), [WriteAction.sendTry])

/-- Outcome classification for the discovery-walk callback. -/
inductive WalkOutcome where
  | skippedTracked
  | registeredDir
  | skippedNoMatch
  | registeredFile
  | aborted
deriving Repr, DecidableEq

/-- Result of one invocation of the discovery-walk callback, including the
count of `Mutex.Lock` and `Mutex.Unlock` calls executed on that path. -/
structure WalkStepResult where
  outcome : WalkOutcome
  pool : WatchedFxPool
  locks : Nat
  unlocks : Nat
  actions : List WriteAction
deriving Repr, DecidableEq

/-- The `walkFunc` closure of `NewFxWatcher`, as written. It locks the
mutex on entry. An already-tracked path unlocks and returns. A directory
is registered and the function unlocks at its end. A regular file whose
joined path fails the name pattern returns immediately, without any
unlock. A matching file is statted (a stat error reaches `checkError`,
which aborts while the lock is held), registered with `LastSize` from the
stat and `LastTry := now`, sent `StreamTry`, and the function unlocks at
its end. -/
def walkFuncStep (pool : WatchedFxPool) (path : String) (isDir reMatch : Bool)
    (stat : Option Int) (now : Int) : WalkStepResult :=
  match poolLookup pool path with
  | some _ =>
    { outcome := WalkOutcome.skippedTracked, pool := pool, locks := 1, unlocks := 1,
      actions := [] }
  | none =>
    if isDir then
      { outcome := WalkOutcome.registeredDir,
        pool := poolInsert pool path
          { Name := path, LastSize := 0, LastTry := 0, BytesRead := 0, IsDir := true },
        locks := 1, unlocks := 1, actions := [] }
    else if !reMatch then
      { outcome := WalkOutcome.skippedNoMatch, pool := pool, locks := 1, unlocks := 0,
        actions := [] }
    else
      match stat with
      | none =>
        { outcome := WalkOutcome.aborted, pool := pool, locks := 1, unlocks := 0,
          actions := [] }
      | some sz =>
        { outcome := WalkOutcome.registeredFile,
          pool := poolInsert pool path
            { Name := path, LastSize := sz, LastTry := now, BytesRead := 0, IsDir := false },
          locks := 1, unlocks := 1, actions := [WriteAction.sendTry] }

/-- The periodic size refresh at the bottom of the watcher drain loop,
as written: `fi, err := os.Stat(ePath); if err != nil { w.LastSize = fi.Size() }`.
The update branch runs exactly when the stat failed; in that case `fi` is
nil and `fi.Size()` dereferences it, modelled as `none`. When the stat
succeeds the branch is skipped and the entry is returned unchanged. -/
def drainSizeRefresh (stat : Option StatInfo) (w : WatchedFx) : Option WatchedFx :=
  match stat with
  | none => none
  | some _ => some w

/-- `dirs.filter(d != "-")`: the `ndirs` list computed in `scatCmd`. -/
def filterDashDirs (dirs : List String) : List String :=
  dirs.filter (fun d => d != "-")

/-- The root list `scatCmd` actually passes to `LaunchFxWatchers`:
`none` when it exits because `ndirs` is empty, otherwise the original
unfiltered `dirs` (the source passes `dirs`, not `ndirs`). -/
def scatLaunchRoots (dirs : List String) : Option (List String) :=
  if (filterDashDirs dirs).length = 0 then none else some dirs

/-- `LaunchFxWatchers` spawns one `NewFxWatcher` goroutine per element of
the `dirs` argument it receives, in order. -/
def launchFxWatcherRoots (dirs : List String) : List String :=
  dirs

/-- An output record (`*simpleSeq`). The type is opaque to the watcher and
coordinator; only its identity matters here, so it is modelled as a string
payload. -/
abbrev simpleSeq := String

/-- Destinations a record can be written to: `fmt.Println` writes to
standard output; `outfh` is the sink opened from the configured output
file by `xopen.Wopen(outFile)`. -/
inductive OutDest where
  | stdout
  | sink
deriving Repr, DecidableEq

/-- The coordinator's forwarding of one record pulled from a root's output
queue: `case seq := <-sc: fmt.Println(seq)` — the record goes, unmodified,
to standard output. -/
def coordForward (seq : simpleSeq) : OutDest × simpleSeq :=
  (OutDest.stdout, seq)

/-- Non-blocking drain of one root's queue in arrival order, forwarding
each record via `coordForward`. -/
def coordDrainSeqs (queue : List simpleSeq) : List (OutDest × simpleSeq) :=
  queue.map coordForward

/-- Records the coordinator's drain loop writes to the opened sink
`outfh`: the loop body contains no write to it. -/
def coordSinkWrites (_queue : List simpleSeq) : List simpleSeq :=
  []

/-- Result of draining one file entry's acknowledgment channel during the
shutdown sweep (`for j := range w.CtrlChanOut`): `exited` when
`StreamExited` arrives (loop breaks), `closed` when the channel is closed
before any `StreamExited`, `fatal` when any tag other than `StreamEOF` or
`StreamExited` arrives. -/
inductive DrainResult where
  | exited
  | closed
  | fatal (bad : SeqStreamCtrl)
deriving Repr, DecidableEq

def drainAcks : List SeqStreamCtrl → DrainResult
  | [] => DrainResult.closed
  | SeqStreamCtrl.StreamExited :: _ => DrainResult.exited
  | SeqStreamCtrl.StreamEOF :: rest => drainAcks rest
  | bad :: _ => DrainResult.fatal bad

/-- One registry entry together with the acknowledgments its session will
emit after `StreamQuit` during the shutdown sweep. -/
structure SweepEntry where
  path : String
  entry : WatchedFx
  acks : List SeqStreamCtrl
deriving Repr, DecidableEq

/-- Result of the shutdown sweep: the paths sent `StreamQuit` in order,
the entries still in the registry when the sweep stops, and the terminal
acknowledgment sent back on the control channel (`WatchCtrl(-9)`), or
`none` when a bad acknowledgment made the sweep fatal. -/
structure SweepResult where
  quits : List String
  remaining : List (String × WatchedFx)
  terminal : Option Int
deriving Repr, DecidableEq

/-- The shutdown branch of the watcher event loop: for every entry, the
subscription is dropped; a directory entry is deleted outright; a file
entry is sent `StreamQuit` and its acknowledgments are drained
(`StreamEOF` tolerated, `StreamExited` breaks, anything else is fatal),
then the entry is deleted. After the loop, `WatchCtrl(-9)` is sent back on
the same control channel. -/
def shutdownSweep : List SweepEntry → SweepResult
  | [] => { quits := [], remaining := [], terminal := some (-9) }
  | e :: rest =>
    if e.entry.IsDir then shutdownSweep rest
    else
      match drainAcks e.acks with
      | DrainResult.fatal _ =>
        { quits := [e.path],
          remaining := (e.path, e.entry) :: rest.map (fun r => (r.path, r.entry)),
          terminal := none }
      | _ =>
        let r := shutdownSweep rest
        { quits := e.path :: r.quits, remaining := r.remaining, terminal := r.terminal }

/-- Modelled from the spec: `checkError` (declared outside this file)
aborts the process with a diagnostic when handed a non-nil error and is a
no-op otherwise; the spec's error-handling section lists its failure
categories as fatal with abrupt termination. `none` models a non-nil
error. -/
def checkErrorAborts (err : Option String) : Bool :=
  err.isSome

/- ------------------------------------------------------------------ -/
/- Helper lemmas                                                       -/
/- ------------------------------------------------------------------ -/

theorem poolLookup_poolErase (p : WatchedFxPool) (k : String) :
    poolLookup (poolErase p k) k = none := by
  induction p with
  | nil => rfl
  | cons e rest ih =>
    by_cases h : e.1 = k
    · simp [poolErase, List.filter, h] at ih ⊢
      simpa [poolErase] using ih
    · simp only [poolErase, List.filter] at ih ⊢
      have hb : (e.1 != k) = true := by
        simpa using h
      rw [hb]
      simpa [poolLookup, h] using ih

theorem poolLookup_poolUpdate (p : WatchedFxPool) (k : String)
    (v w : WatchedFx) (h : poolLookup p k = some w) :
    poolLookup (poolUpdate p k v) k = some v := by
  induction p with
  | nil => simp [poolLookup] at h
  | cons e rest ih =>
    simp only [poolUpdate, List.map]
    by_cases he : e.1 = k
    · rw [if_pos he]
      simp [poolLookup]
    · rw [if_neg he]
      simp only [poolLookup, he, if_false] at h ⊢
      exact ih h

theorem shutdownSweep_complete (entries : List SweepEntry)
    (h : ∀ e ∈ entries, e.entry.IsDir = false → drainAcks e.acks = DrainResult.exited) :
    shutdownSweep entries =
      { quits := (entries.filter (fun e => !e.entry.IsDir)).map SweepEntry.path,
        remaining := [], terminal := some (-9) } := by
  induction entries with
  | nil => rfl
  | cons e rest ih =>
    have hrest : ∀ x ∈ rest, x.entry.IsDir = false → drainAcks x.acks = DrainResult.exited :=
      fun x hx => h x (List.mem_cons_of_mem _ hx)
    cases hd : e.entry.IsDir with
    | true =>
      simp [shutdownSweep, hd, List.filter_cons, ih hrest]
    | false =>
      have hx : drainAcks e.acks = DrainResult.exited := h e (List.mem_cons_self _ _) hd
      simp [shutdownSweep, hd, hx, List.filter_cons, ih hrest]

/- ------------------------------------------------------------------ -/
/- Claim theorems                                                      -/
/- ------------------------------------------------------------------ -/

/-- C1: the claim says a watcher is spawned only for the roots remaining
after filtering out `-`. In the source, `scatCmd` computes the filtered
list `ndirs` but passes the unfiltered `dirs` to `LaunchFxWatchers`, which
spawns one watcher per element; with arguments `["-", "/data"]` a watcher
is spawned for the `-` placeholder as well. -/
theorem scat_dash_root_gets_watcher :
    scatLaunchRoots ["-", "/data"] = some ["-", "/data"] ∧
    launchFxWatcherRoots ["-", "/data"] = ["-", "/data"] ∧
    "-" ∈ launchFxWatcherRoots ["-", "/data"] ∧
    filterDashDirs ["-", "/data"] = ["/data"] := by
  decide

/-- C2: the claim says records are forwarded to the single append-opened
sink. The coordinator's drain loop forwards each record, unmodified and in
arrival order, to standard output via `fmt.Println`, and never writes to
the sink it opened from the configured output file. -/
theorem scat_records_go_to_stdout :
    coordForward "@r1" = (OutDest.stdout, "@r1") ∧
    (coordForward "@r1").1 ≠ OutDest.sink ∧
    coordDrainSeqs ["@r1", "@r2"] = [(OutDest.stdout, "@r1"), (OutDest.stdout, "@r2")] ∧
    coordSinkWrites ["@r1", "@r2"] = [] := by
  decide

/-- C4: the claim says a rename notification for an untracked path is
ignored like remove, write and create notifications are. In the source the
Rename branch dereferences the registry entry with no nil check, so an
untracked path panics, while the Remove and Write branches ignore the same
path. -/
theorem scat_rename_untracked_panics :
    handleRenameEvent [] "/data/x.fastq" SeqStreamCtrl.StreamExited =
      (RenameResult.panicked, []) ∧
    handleRemoveEvent [] "/data/x.fastq" SeqStreamCtrl.StreamExited =
      (RemoveResult.ignored [], []) ∧
    handleWriteEvent 5120 500 1000 [] "/data/x.fastq"
      (some { size := 10, isDir := false }) SeqStreamCtrl.StreamExited =
      (EventResult.ignored [], []) := by
  decide

/-- C9: in the drain loop's periodic size refresh, the update branch runs
exactly when `os.Stat` fails (and then dereferences the nil stat result,
modelled as `none`); when the stat succeeds the entry — in particular its
`LastSize` field — is left unchanged. -/
theorem scat_drain_refresh_branch (w : WatchedFx) (fi : StatInfo) :
    drainSizeRefresh none w = none ∧ drainSizeRefresh (some fi) w = some w :=
  ⟨rfl, rfl⟩

/-- C10: the claim says every path through the discovery-walk callback
releases the registry lock before returning. The early return for an
untracked regular file whose path fails the name pattern performs the
`Lock` but no `Unlock`; the other non-aborting paths are balanced. -/
theorem scat_walkfunc_lock_leak :
    (walkFuncStep [] "/data/readme.txt" false false (some 0) 0).locks = 1 ∧
    (walkFuncStep [] "/data/readme.txt" false false (some 0) 0).unlocks = 0 ∧
    (walkFuncStep [] "/data/readme.txt" false false (some 0) 0).outcome =
      WalkOutcome.skippedNoMatch ∧
    (walkFuncStep [] "/data/a.fastq" false true (some 7) 0).unlocks = 1 ∧
    (walkFuncStep [] "/data/sub" true false (some 0) 0).unlocks = 1 ∧
    (walkFuncStep [("/data/a.fastq",
        { Name := "/data/a.fastq", LastSize := 7, LastTry := 0, BytesRead := 0,
          IsDir := false })] "/data/a.fastq" false true (some 7) 0).unlocks = 1 := by
  decide

theorem handleWriteEvent_trunc_eq (minDelta dropDuration now : Int)
    (pool : WatchedFxPool) (ePath : String) (fi : StatInfo) (w : WatchedFx)
    (ack : SeqStreamCtrl)
    (hw : poolLookup pool ePath = some w)
    (hdir : fi.isDir = false)
    (hdeb : ¬ now - w.LastTry < dropDuration)
    (hlt : fi.size < w.LastSize) :
    handleWriteEvent minDelta dropDuration now pool ePath (some fi) ack =
      ((if ack = SeqStreamCtrl.StreamExited then
          EventResult.removed (poolErase pool ePath)
        else EventResult.fatal ack), [WriteAction.sendQuit]) := by
  have hne : ¬ w.LastSize = fi.size := by omega
  have hneg : fi.size - w.LastSize < 0 := by omega
  simp only [handleWriteEvent, hw, hdir, Bool.false_eq_true, if_false]
  rw [if_neg hdeb, if_neg hne]
  simp only [if_pos hneg]
  by_cases hack : ack = SeqStreamCtrl.StreamExited <;> simp [hack]

/-- C3: for a write notification on a tracked file whose new size is
strictly below the last known size, once the debounce window has elapsed,
the watcher sends exactly one `StreamQuit` and no `StreamTry`; on the
`StreamExited` acknowledgment the entry is removed from the registry, and
any other acknowledgment is fatal. -/
theorem scat_truncation_protocol (minDelta dropDuration now : Int)
    (pool : WatchedFxPool) (ePath : String) (fi : StatInfo) (w : WatchedFx)
    (ack : SeqStreamCtrl)
    (hw : poolLookup pool ePath = some w)
    (hdir : fi.isDir = false)
    (hdeb : ¬ now - w.LastTry < dropDuration)
    (hlt : fi.size < w.LastSize) :
    (handleWriteEvent minDelta dropDuration now pool ePath (some fi) ack).2 =
      [WriteAction.sendQuit] ∧
    WriteAction.sendTry ∉
      (handleWriteEvent minDelta dropDuration now pool ePath (some fi) ack).2 ∧
    (ack = SeqStreamCtrl.StreamExited →
      handleWriteEvent minDelta dropDuration now pool ePath (some fi) ack =
        (EventResult.removed (poolErase pool ePath), [WriteAction.sendQuit]) ∧
      poolLookup (poolErase pool ePath) ePath = none) ∧
    (ack ≠ SeqStreamCtrl.StreamExited →
      (handleWriteEvent minDelta dropDuration now pool ePath (some fi) ack).1 =
        EventResult.fatal ack) := by
  have key := handleWriteEvent_trunc_eq minDelta dropDuration now pool ePath fi w ack
    hw hdir hdeb hlt
  refine ⟨?_, ?_, ?_, ?_⟩
  · rw [key]
  · rw [key]
    intro hmem
    simp at hmem
  · intro hack
    rw [key, if_pos hack]
    exact ⟨rfl, poolLookup_poolErase pool ePath⟩
  · intro hack
    rw [key, if_neg hack]

/-- C3 witness: a concrete truncation event (tracked size 100, new size
50, debounce 500 elapsed) satisfying the hypotheses, with the conclusion
obtained from `scat_truncation_protocol`. -/
theorem scat_truncation_protocol_witness :
    (poolLookup [("/data/a.fastq", ⟨"/data/a.fastq", 100, 0, 0, false⟩)]
        "/data/a.fastq" = some ⟨"/data/a.fastq", 100, 0, 0, false⟩ ∧
      (⟨50, false⟩ : StatInfo).isDir = false ∧
      ¬ ((1000 : Int) - (⟨"/data/a.fastq", 100, 0, 0, false⟩ : WatchedFx).LastTry < 500) ∧
      (⟨50, false⟩ : StatInfo).size <
        (⟨"/data/a.fastq", 100, 0, 0, false⟩ : WatchedFx).LastSize) ∧
    ((handleWriteEvent 5120 500 1000
        [("/data/a.fastq", ⟨"/data/a.fastq", 100, 0, 0, false⟩)] "/data/a.fastq"
        (some ⟨50, false⟩) SeqStreamCtrl.StreamExited).2 = [WriteAction.sendQuit] ∧
      WriteAction.sendTry ∉
        (handleWriteEvent 5120 500 1000
          [("/data/a.fastq", ⟨"/data/a.fastq", 100, 0, 0, false⟩)] "/data/a.fastq"
          (some ⟨50, false⟩) SeqStreamCtrl.StreamExited).2 ∧
      (SeqStreamCtrl.StreamExited = SeqStreamCtrl.StreamExited →
        handleWriteEvent 5120 500 1000
          [("/data/a.fastq", ⟨"/data/a.fastq", 100, 0, 0, false⟩)] "/data/a.fastq"
          (some ⟨50, false⟩) SeqStreamCtrl.StreamExited =
          (EventResult.removed
            (poolErase [("/data/a.fastq", ⟨"/data/a.fastq", 100, 0, 0, false⟩)]
              "/data/a.fastq"), [WriteAction.sendQuit]) ∧
        poolLookup
          (poolErase [("/data/a.fastq", ⟨"/data/a.fastq", 100, 0, 0, false⟩)]
            "/data/a.fastq") "/data/a.fastq" = none) ∧
      (SeqStreamCtrl.StreamExited ≠ SeqStreamCtrl.StreamExited →
        (handleWriteEvent 5120 500 1000
          [("/data/a.fastq", ⟨"/data/a.fastq", 100, 0, 0, false⟩)] "/data/a.fastq"
          (some ⟨50, false⟩) SeqStreamCtrl.StreamExited).1 =
          EventResult.fatal SeqStreamCtrl.StreamExited)) :=
  ⟨⟨by decide, by decide, by decide, by decide⟩,
    scat_truncation_protocol 5120 500 1000
      [("/data/a.fastq", ⟨"/data/a.fastq", 100, 0, 0, false⟩)] "/data/a.fastq"
      ⟨50, false⟩ ⟨"/data/a.fastq", 100, 0, 0, false⟩ SeqStreamCtrl.StreamExited
      (by decide) (by decide) (by decide) (by decide)⟩

/-- C5: while the elapsed time since a tracked entry's last-try timestamp
is below the debounce interval, a write notification issues no `StreamTry`
(indeed no signal at all) and leaves the registry unchanged, whatever the
newly observed size is. -/
theorem scat_debounce_blocks_try (minDelta dropDuration now : Int)
    (pool : WatchedFxPool) (ePath : String) (fi : StatInfo) (w : WatchedFx)
    (ack : SeqStreamCtrl)
    (hw : poolLookup pool ePath = some w)
    (hdir : fi.isDir = false)
    (hdeb : now - w.LastTry < dropDuration) :
    handleWriteEvent minDelta dropDuration now pool ePath (some fi) ack =
      (EventResult.ignored pool, []) ∧
    WriteAction.sendTry ∉
      (handleWriteEvent minDelta dropDuration now pool ePath (some fi) ack).2 := by
  have key : handleWriteEvent minDelta dropDuration now pool ePath (some fi) ack =
      (EventResult.ignored pool, []) := by
    simp only [handleWriteEvent, hw, hdir, Bool.false_eq_true, if_false]
    rw [if_pos hdeb]
  refine ⟨key, ?_⟩
  rw [key]
  intro hmem
  simp at hmem

/-- C5 witness: a tracked file of size 10240 grows to 20480 only 100 time
units after its last try, with a debounce interval of 500: the event is
ignored despite the large growth. -/
theorem scat_debounce_blocks_try_witness :
    (poolLookup [("/data/a.fastq", ⟨"/data/a.fastq", 10240, 900, 0, false⟩)]
        "/data/a.fastq" = some ⟨"/data/a.fastq", 10240, 900, 0, false⟩ ∧
      (⟨20480, false⟩ : StatInfo).isDir = false ∧
      (1000 : Int) - (⟨"/data/a.fastq", 10240, 900, 0, false⟩ : WatchedFx).LastTry < 500) ∧
    (handleWriteEvent 5120 500 1000
        [("/data/a.fastq", ⟨"/data/a.fastq", 10240, 900, 0, false⟩)] "/data/a.fastq"
        (some ⟨20480, false⟩) SeqStreamCtrl.StreamEOF =
      (EventResult.ignored [("/data/a.fastq", ⟨"/data/a.fastq", 10240, 900, 0, false⟩)], []) ∧
      WriteAction.sendTry ∉
        (handleWriteEvent 5120 500 1000
          [("/data/a.fastq", ⟨"/data/a.fastq", 10240, 900, 0, false⟩)] "/data/a.fastq"
          (some ⟨20480, false⟩) SeqStreamCtrl.StreamEOF).2) :=
  ⟨⟨by decide, by decide, by decide⟩,
    scat_debounce_blocks_try 5120 500 1000
      [("/data/a.fastq", ⟨"/data/a.fastq", 10240, 900, 0, false⟩)] "/data/a.fastq"
      ⟨20480, false⟩ ⟨"/data/a.fastq", 10240, 900, 0, false⟩ SeqStreamCtrl.StreamEOF
      (by decide) (by decide) (by decide)⟩

/-- C6: for a write notification on a tracked file that passes the
debounce and size-equality checks and shows positive growth, with the
threshold obtained from the `delta` flag by the kilobyte-to-byte
conversion: growth below the threshold issues nothing and leaves the
registry unchanged; growth at or above it issues exactly one `StreamTry`
and sets the entry's `LastTry` to now. -/
theorem scat_growth_threshold (deltaFlag dropDuration now : Int)
    (pool : WatchedFxPool) (ePath : String) (fi : StatInfo) (w : WatchedFx)
    (ack : SeqStreamCtrl)
    (hw : poolLookup pool ePath = some w)
    (hdir : fi.isDir = false)
    (hdeb : ¬ now - w.LastTry < dropDuration)
    (hgt : w.LastSize < fi.size) :
    (fi.size - w.LastSize < minDeltaBytes deltaFlag →
      handleWriteEvent (minDeltaBytes deltaFlag) dropDuration now pool ePath
        (some fi) ack = (EventResult.ignored pool, [])) ∧
    (¬ fi.size - w.LastSize < minDeltaBytes deltaFlag →
      handleWriteEvent (minDeltaBytes deltaFlag) dropDuration now pool ePath
        (some fi) ack =
        (EventResult.tried (poolUpdate pool ePath { w with LastTry := now }),
          [WriteAction.sendTry]) ∧
      poolLookup (poolUpdate pool ePath { w with LastTry := now }) ePath =
        some { w with LastTry := now }) := by
  have hne : ¬ w.LastSize = fi.size := by omega
  have hpos : ¬ fi.size - w.LastSize < 0 := by omega
  constructor
  · intro hsmall
    simp only [handleWriteEvent, hw, hdir, Bool.false_eq_true, if_false]
    rw [if_neg hdeb, if_neg hne]
    simp only [if_neg hpos, if_pos hsmall]
  · intro hbig
    refine ⟨?_, poolLookup_poolUpdate pool ePath { w with LastTry := now } w hw⟩
    simp only [handleWriteEvent, hw, hdir, Bool.false_eq_true, if_false]
    rw [if_neg hdeb, if_neg hne]
    simp only [if_neg hpos, if_neg hbig]

/-- C6 witness: tracked size 10240, debounce elapsed, threshold
`minDeltaBytes 5 = 5120`: a write to 10250 (growth 10) is ignored, and the
same entry written to 20480 (growth 10240) triggers exactly one
`StreamTry` with `LastTry` set to now; the small-growth side is
instantiated here. -/
theorem scat_growth_threshold_witness :
    (poolLookup [("/data/a.fastq", ⟨"/data/a.fastq", 10240, 0, 0, false⟩)]
        "/data/a.fastq" = some ⟨"/data/a.fastq", 10240, 0, 0, false⟩ ∧
      (⟨10250, false⟩ : StatInfo).isDir = false ∧
      ¬ ((1000 : Int) - (⟨"/data/a.fastq", 10240, 0, 0, false⟩ : WatchedFx).LastTry < 500) ∧
      (⟨"/data/a.fastq", 10240, 0, 0, false⟩ : WatchedFx).LastSize <
        (⟨10250, false⟩ : StatInfo).size ∧
      (⟨10250, false⟩ : StatInfo).size -
        (⟨"/data/a.fastq", 10240, 0, 0, false⟩ : WatchedFx).LastSize <
        minDeltaBytes 5) ∧
    handleWriteEvent (minDeltaBytes 5) 500 1000
      [("/data/a.fastq", ⟨"/data/a.fastq", 10240, 0, 0, false⟩)] "/data/a.fastq"
      (some ⟨10250, false⟩) SeqStreamCtrl.StreamEOF =
      (EventResult.ignored [("/data/a.fastq", ⟨"/data/a.fastq", 10240, 0, 0, false⟩)], []) :=
  ⟨⟨by decide, by decide, by decide, by decide, by decide⟩,
    (scat_growth_threshold 5 500 1000
      [("/data/a.fastq", ⟨"/data/a.fastq", 10240, 0, 0, false⟩)] "/data/a.fastq"
      ⟨10250, false⟩ ⟨"/data/a.fastq", 10240, 0, 0, false⟩ SeqStreamCtrl.StreamEOF
      (by decide) (by decide) (by decide) (by decide)).1 (by decide)⟩

/-- C7: under the session contract (every file entry's acknowledgment
stream yields `StreamExited`, possibly after `StreamEOF`s), the shutdown
sweep sends `StreamQuit` to exactly the file entries (directories are
dropped without a signal), clears the whole registry, and then sends the
terminal acknowledgment `WatchCtrl(-9)` back on the control channel; the
drain itself tolerates and skips any `StreamEOF`, stops at `StreamExited`,
and is fatal on any other acknowledgment. -/
theorem scat_shutdown_handshake (entries : List SweepEntry)
    (h : ∀ e ∈ entries, e.entry.IsDir = false → drainAcks e.acks = DrainResult.exited) :
    (shutdownSweep entries).remaining = [] ∧
    (shutdownSweep entries).terminal = some (-9) ∧
    (shutdownSweep entries).quits =
      (entries.filter (fun e => !e.entry.IsDir)).map SweepEntry.path ∧
    (∀ rest, drainAcks (SeqStreamCtrl.StreamEOF :: rest) = drainAcks rest) ∧
    (∀ bad rest, bad ≠ SeqStreamCtrl.StreamEOF → bad ≠ SeqStreamCtrl.StreamExited →
      drainAcks (bad :: rest) = DrainResult.fatal bad) ∧
    (∀ rest, drainAcks (SeqStreamCtrl.StreamExited :: rest) = DrainResult.exited) := by
  have key := shutdownSweep_complete entries h
  refine ⟨by rw [key], by rw [key], by rw [key], fun rest => rfl, ?_, fun rest => rfl⟩
  intro bad rest hEOF hEx
  cases bad with
  | StreamTry => rfl
  | StreamQuit => rfl
  | StreamEOF => exact absurd rfl hEOF
  | StreamExited => exact absurd rfl hEx

/-- C7 witness: a registry holding the root directory and one file whose
session answers `StreamEOF` then `StreamExited`: the sweep quits exactly
the file, empties the registry and emits the `-9` terminal
acknowledgment. -/
theorem scat_shutdown_handshake_witness :
    (∀ e ∈ [SweepEntry.mk "/data" ⟨"/data", 0, 0, 0, true⟩ [],
        SweepEntry.mk "/data/a.fastq" ⟨"/data/a.fastq", 100, 0, 0, false⟩
          [SeqStreamCtrl.StreamEOF, SeqStreamCtrl.StreamExited]],
      e.entry.IsDir = false → drainAcks e.acks = DrainResult.exited) ∧
    ((shutdownSweep [SweepEntry.mk "/data" ⟨"/data", 0, 0, 0, true⟩ [],
        SweepEntry.mk "/data/a.fastq" ⟨"/data/a.fastq", 100, 0, 0, false⟩
          [SeqStreamCtrl.StreamEOF, SeqStreamCtrl.StreamExited]]).remaining = [] ∧
      (shutdownSweep [SweepEntry.mk "/data" ⟨"/data", 0, 0, 0, true⟩ [],
        SweepEntry.mk "/data/a.fastq" ⟨"/data/a.fastq", 100, 0, 0, false⟩
          [SeqStreamCtrl.StreamEOF, SeqStreamCtrl.StreamExited]]).terminal = some (-9) ∧
      (shutdownSweep [SweepEntry.mk "/data" ⟨"/data", 0, 0, 0, true⟩ [],
        SweepEntry.mk "/data/a.fastq" ⟨"/data/a.fastq", 100, 0, 0, false⟩
          [SeqStreamCtrl.StreamEOF, SeqStreamCtrl.StreamExited]]).quits =
        (([SweepEntry.mk "/data" ⟨"/data", 0, 0, 0, true⟩ [],
          SweepEntry.mk "/data/a.fastq" ⟨"/data/a.fastq", 100, 0, 0, false⟩
            [SeqStreamCtrl.StreamEOF, SeqStreamCtrl.StreamExited]].filter
          (fun e => !e.entry.IsDir)).map SweepEntry.path) ∧
      (∀ rest, drainAcks (SeqStreamCtrl.StreamEOF :: rest) = drainAcks rest) ∧
      (∀ bad rest, bad ≠ SeqStreamCtrl.StreamEOF → bad ≠ SeqStreamCtrl.StreamExited →
        drainAcks (bad :: rest) = DrainResult.fatal bad) ∧
      (∀ rest, drainAcks (SeqStreamCtrl.StreamExited :: rest) = DrainResult.exited)) :=
  ⟨by decide,
    scat_shutdown_handshake
      [SweepEntry.mk "/data" ⟨"/data", 0, 0, 0, true⟩ [],
        SweepEntry.mk "/data/a.fastq" ⟨"/data/a.fastq", 100, 0, 0, false⟩
          [SeqStreamCtrl.StreamEOF, SeqStreamCtrl.StreamExited]]
      (by decide)⟩

/-- C8 counterexample: the claim says a stat failure during event handling
is recovered locally and the process does not abort. At a concrete input —
a write notification for a tracked file whose stat fails, and a create
notification for an untracked path whose stat fails — the handlers abort
the process (`checkError` on the non-nil stat error) instead of treating
the path as already gone. -/
theorem scat_stat_failure_cex :
    handleWriteEvent 5120 500 1000
      [("/data/a.fastq", ⟨"/data/a.fastq", 100, 0, 0, false⟩)] "/data/a.fastq"
      none SeqStreamCtrl.StreamExited = (EventResult.aborted, []) ∧
    handleCreateEvent [] "/data/a.fastq" none true 1000 = (CreateResult.aborted, []) ∧
    EventResult.aborted ≠
      EventResult.ignored [("/data/a.fastq", ⟨"/data/a.fastq", 100, 0, 0, false⟩)] ∧
    EventResult.aborted ≠
      EventResult.removed
        (poolErase [("/data/a.fastq", ⟨"/data/a.fastq", 100, 0, 0, false⟩)]
          "/data/a.fastq") ∧
    checkErrorAborts (some "stat failed") = true := by
  decide

/-- C8 amended: a stat failure on a path during write-notification
handling always aborts the process, and during create-notification
handling it aborts whenever the path is untracked (a tracked path is
skipped before the stat); the mid-removal race is not recovered
locally. -/
theorem scat_stat_failure_aborts (minDelta dropDuration now : Int)
    (pool : WatchedFxPool) (ePath : String) (ack : SeqStreamCtrl) (reMatch : Bool)
    (hp : poolLookup pool ePath = none) :
    handleWriteEvent minDelta dropDuration now pool ePath none ack =
      (EventResult.aborted, []) ∧
    handleCreateEvent pool ePath none reMatch now = (CreateResult.aborted, []) := by
  refine ⟨rfl, ?_⟩
  simp only [handleCreateEvent, hp]

/-- C8 witness: a stat failure for the untracked path `/data/b.fastq`
aborts both the write and the create handlers. -/
theorem scat_stat_failure_aborts_witness :
    poolLookup [] "/data/b.fastq" = none ∧
    (handleWriteEvent 5120 500 1000 [] "/data/b.fastq" none
        SeqStreamCtrl.StreamEOF = (EventResult.aborted, []) ∧
      handleCreateEvent [] "/data/b.fastq" none true 1000 =
        (CreateResult.aborted, [])) :=
  ⟨rfl, scat_stat_failure_aborts 5120 500 1000 [] "/data/b.fastq"
    SeqStreamCtrl.StreamEOF true rfl⟩
